import Mathlib

/-!
Shallow embedding of `src/app.py` (sustainability scoring backend).

Numbers are modelled as exact rationals (`ℚ`); Python's `round(x, 2)`
(round-half-to-even at two decimal places) is modelled exactly by
`pyRound`/`round2` below.  Strings are Lean `String`s; the Python string
operations the code uses (`lower`, `strip`, `split`, `startswith`, `in`,
lexicographic comparison) are given structural models below, which agree
with Python on the ASCII inputs the specification exercises.
-/

/-- Python's `round` to the nearest integer, rounding halves to the even
neighbour (banker's rounding). -/
def pyRound (x : ℚ) : ℤ :=
  if Int.fract x = 1/2 then (if ⌊x⌋ % 2 = 0 then ⌊x⌋ else ⌊x⌋ + 1) else round x

/-- Python's `round(x, 2)`: round to two decimal places. -/
def round2 (x : ℚ) : ℚ := (pyRound (x * 100) : ℚ) / 100

/-- The weight dictionaries of `app.py`: three numbers keyed
`gwp`, `circularity`, `cost`. -/
structure Weights where
  gwp : ℚ
  circularity : ℚ
  cost : ℚ
deriving DecidableEq, Repr

/-- `DEFAULT_WEIGHTS` from `app.py` line 17. -/
def DEFAULT_WEIGHTS : Weights := ⟨40/100, 35/100, 25/100⟩

/-- `calculate_sustainability_score` from `app.py` lines 23-57.  The Python
function raises `ValueError` when the weights are out of tolerance; this is
modelled by `Except.error`. -/
def calculate_sustainability_score (gwp circularity cost : ℚ)
    (weights : Option Weights := none) : Except String ℚ :=
  let weights := weights.getD DEFAULT_WEIGHTS
  let weight_sum := weights.gwp + weights.circularity + weights.cost
  if |weight_sum - 1| > 1/100 then
    .error "Weights must sum to 1.0"
  else
    let gwp_normalized := max 0 (min 100 gwp)
    let gwp_score := 100 - gwp_normalized
    let circularity_score := max 0 (min 100 circularity)
    let cost_normalized := max 0 (min 1000 cost)
    let cost_score := 100 - (cost_normalized / 1000 * 100)
    let final_score :=
      gwp_score * weights.gwp +
      circularity_score * weights.circularity +
      cost_score * weights.cost
    .ok (round2 final_score)

/-- `get_rating` from `app.py` lines 59-70. -/
def get_rating (score : ℚ) : String :=
  if score ≥ 85 then "A"
  else if score ≥ 70 then "B"
  else if score ≥ 55 then "C"
  else if score ≥ 40 then "D"
  else "F"

/-- Python's `needle in hay` substring test, on lists of characters. -/
def listInfix [BEq α] : List α → List α → Bool
  | needle, [] => needle.isEmpty
  | needle, a :: as => needle.isPrefixOf (a :: as) || listInfix needle as

/-- Python's `needle in hay` for strings (substring containment). -/
def contains_sub (needle hay : String) : Bool := listInfix needle.toList hay.toList

/-- Python's `s.lower()` (the inputs of interest are ASCII). -/
def lowerStr (s : String) : String := String.mk (s.toList.map Char.toLower)

/-- The whitespace characters stripped by Python's `str.strip()` (ASCII range). -/
def isPySpace (c : Char) : Bool :=
  c == ' ' || c == '\t' || c == '\n' || c == '\r' || c == '\x0b' || c == '\x0c'

/-- Python's `s.strip(...)`: drop characters satisfying `p` from both ends. -/
def stripBoth (p : Char → Bool) (s : String) : String :=
  String.mk (((s.toList.dropWhile p).reverse.dropWhile p).reverse)

/-- Split a character list at every occurrence of `c` (Python's `split`). -/
def splitOnChar (c : Char) : List Char → List (List Char)
  | [] => [[]]
  | a :: as =>
    let r := splitOnChar c as
    if a == c then [] :: r
    else
      match r with
      | h :: t => (a :: h) :: t
      | [] => [[a]]

/-- Python's `s.split(chr(10))`: split a string on newline characters. -/
def splitNl (s : String) : List String := (splitOnChar '\n' s.toList).map String.mk

/-- Python's `s.startswith(p)`. -/
def startsWithStr (p s : String) : Bool := p.toList.isPrefixOf s.toList

/-- The problem-material keyword list of `extract_issues` (`app.py` line 76). -/
def problem_materials : List String := ["plastic", "pvc", "polystyrene", "styrofoam"]

/-- The non-recyclable-packaging keyword list of `extract_issues` (`app.py` line 84). -/
def non_recyclable : List String := ["plastic", "mixed materials", "non-recyclable"]

/-- `extract_issues` from `app.py` lines 72-88, with the three appending phases
rendered as a fold (materials loop) followed by two conditional appends. -/
def extract_issues (materials : List String) (transport packaging : String) : List String :=
  let issues : List String := []
  let issues := materials.foldl
    (fun acc mat =>
      if problem_materials.any (fun pm => contains_sub pm (lowerStr mat)) then
        acc ++ [mat ++ " material used"]
      else acc)
    issues
  let issues :=
    if (["air", "air freight", "airplane"] : List String).contains (lowerStr transport) then
      issues ++ ["Air transport (high emissions)"]
    else issues
  let issues :=
    if non_recyclable.any (fun nr => contains_sub nr (lowerStr packaging)) then
      issues ++ ["Non-recyclable packaging"]
    else issues
  issues

/-- The fixed fallback suggestions of `get_ai_suggestions` (`app.py` lines 121-125). -/
def FALLBACK_SUGGESTIONS : List String :=
  ["Consider using more sustainable materials",
   "Optimize transport method to reduce emissions",
   "Improve packaging recyclability"]

/-- `get_ai_suggestions` from `app.py` lines 90-125.  The external
text-generation call is abstracted by its outcome `response`: `.error` when
the call (or the access to `message.content[0].text`) raises, `.ok text`
when it returns `text`.  The prompt built from the product data is passed to
the external service and does not otherwise affect the result. -/
def get_ai_suggestions (response : Except Unit String) : List String :=
  match response with
  | .ok text =>
    let suggestions_text := stripBoth isPySpace text
    let suggestions :=
      ((splitNl suggestions_text).filter
          (fun s => startsWithStr "-" (stripBoth isPySpace s))).map
        (fun s => stripBoth isPySpace (stripBoth (fun c => c == '-' || c == ' ') s))
    suggestions.take 5
  | .error _ => FALLBACK_SUGGESTIONS

/-- The submission dictionaries appended to `submissions` by the `/score`
handler (`app.py` lines 165-174): the request fields together with the
computed score, rating, suggestions, issues, timestamp and weights used. -/
structure SubmissionRecord where
  product_name : String
  materials : List String
  transport : String
  packaging : String
  gwp : ℚ
  cost : ℚ
  circularity : ℚ
  score : ℚ
  rating : String
  suggestions : List String
  issues : List String
  timestamp : String
  weights_used : Weights
deriving DecidableEq, Repr

/-- `sorted(submissions, key=timestamp, reverse=True)` orders by descending
timestamp; Python compares strings lexicographically by code point, modelled
by the lexicographic order on the character lists. -/
def ts_ge (a b : SubmissionRecord) : Prop := b.timestamp.toList ≤ a.timestamp.toList

instance : DecidableRel ts_ge :=
  fun a b => inferInstanceAs (Decidable (b.timestamp.toList ≤ a.timestamp.toList))

instance : IsTotal SubmissionRecord ts_ge :=
  ⟨fun a b => le_total b.timestamp.toList a.timestamp.toList⟩

instance : IsTrans SubmissionRecord ts_ge := ⟨fun _ _ _ h h2 => le_trans h2 h⟩

/-- The JSON body of a successful `GET /history` response. -/
structure HistoryResponse where
  count : ℕ
  submissions : List SubmissionRecord
deriving DecidableEq, Repr

/-- `get_history` from `app.py` lines 183-195.  Python's `sorted` with
`reverse=True` is a stable sort putting larger keys first; any stable sort of
the same preorder returns the same list, so insertion sort models it
exactly. -/
def get_history (subs : List SubmissionRecord) : HistoryResponse :=
  let history := List.insertionSort ts_ge subs
  ⟨history.length, history⟩

/-- The `distribution` object of the non-empty `/score-summary` response. -/
structure DistributionStats where
  min_score : ℚ
  max_score : ℚ
  median_score : ℚ
  std_dev : ℚ
deriving DecidableEq, Repr

/-- The `score_range` object of the non-empty `/score-summary` response. -/
structure ScoreRange where
  excellent : ℕ
  good : ℕ
  fair : ℕ
  poor : ℕ
  failing : ℕ
deriving DecidableEq, Repr

/-- The JSON body of a successful `GET /score-summary` response.  `ratings`
and `top_issues` are association lists in emission order (Python dicts keep
insertion order); the empty-store branch of the handler emits no
`distribution` or `score_range` member, modelled by `none`. -/
structure SummaryResponse where
  total_products : ℕ
  average_score : ℚ
  ratings : List (String × ℕ)
  top_issues : List (String × ℕ)
  distribution : Option DistributionStats
  score_range : Option ScoreRange
deriving DecidableEq, Repr

/-- Python's `min(l)` for a non-empty list. -/
def list_min : List ℚ → ℚ
  | [] => 0
  | a :: as => as.foldl min a

/-- Python's `max(l)` for a non-empty list. -/
def list_max : List ℚ → ℚ
  | [] => 0
  | a :: as => as.foldl max a

/-- `statistics.median`: sort ascending, take the middle element (odd length)
or the mean of the two middle elements (even length). -/
def pyMedian (l : List ℚ) : ℚ :=
  let ss := List.insertionSort (· ≤ ·) l
  let n := l.length
  if n % 2 = 1 then ss.getD (n / 2) 0
  else (ss.getD (n / 2 - 1) 0 + ss.getD (n / 2) 0) / 2

/-- Descending count order for the `top_issues` sort. -/
def cnt_ge (a b : String × ℕ) : Prop := b.2 ≤ a.2

instance : DecidableRel cnt_ge := fun a b => inferInstanceAs (Decidable (b.2 ≤ a.2))

instance : IsTotal (String × ℕ) cnt_ge := ⟨fun a b => le_total b.2 a.2⟩

instance : IsTrans (String × ℕ) cnt_ge := ⟨fun _ _ _ h h2 => le_trans h2 h⟩

/-- The occurrence-count dictionary built by the `issue_counts` loop of
`get_summary` (`app.py` lines 221-223), as an association list in insertion
order. -/
def issue_counts_fold (all_issues : List String) : List (String × ℕ) :=
  all_issues.foldl
    (fun acc issue =>
      if acc.any (fun p => p.1 == issue) then
        acc.map (fun p => if p.1 == issue then (p.1, p.2 + 1) else p)
      else acc ++ [(issue, 1)])
    []

/-- `get_summary` from `app.py` lines 197-252.  `statistics.stdev` takes a
square root, a floating-point operation with no exact rational counterpart;
it is abstracted by the parameter `sqrtQ`, applied to the exact sample
variance.  No claim below depends on `sqrtQ`. -/
def get_summary (sqrtQ : ℚ → ℚ) (subs : List SubmissionRecord) : SummaryResponse :=
  if subs.isEmpty then
    ⟨0, 0, [], [], none, none⟩
  else
    let scores := subs.map (·.score)
    let ratings := subs.map (·.rating)
    let rating_counts := (["A", "B", "C", "D", "F"] : List String).map
      (fun r => (r, ratings.count r))
    let all_issues := subs.foldl (fun acc s => acc ++ s.issues) []
    let top_issues := (List.insertionSort cnt_ge (issue_counts_fold all_issues)).take 5
    let n := scores.length
    let mean := scores.sum / (n : ℚ)
    let variance := (scores.map (fun x => (x - mean) ^ 2)).sum / ((n : ℚ) - 1)
    let std_dev := if 1 < n then round2 (sqrtQ variance) else 0
    let distribution : DistributionStats :=
      ⟨list_min scores, list_max scores, pyMedian scores, std_dev⟩
    let score_range : ScoreRange :=
      ⟨(scores.countP (fun s => decide (85 ≤ s))),
       (scores.countP (fun s => decide (70 ≤ s ∧ s < 85))),
       (scores.countP (fun s => decide (55 ≤ s ∧ s < 70))),
       (scores.countP (fun s => decide (40 ≤ s ∧ s < 55))),
       (scores.countP (fun s => decide (s < 40)))⟩
    ⟨n, round2 mean, rating_counts, top_issues, some distribution, some score_range⟩

/-- `clear_data` from `app.py` lines 255-263: responds 200 and resets the
store to the empty list. -/
def clear_data (_store : List SubmissionRecord) : ℕ × List SubmissionRecord := (200, [])

/-- A `POST /score` request body: each required field is present (`some`) or
absent (`none`); `weights` is genuinely optional. -/
structure RequestData where
  product_name : Option String := none
  materials : Option (List String) := none
  transport : Option String := none
  packaging : Option String := none
  gwp : Option ℚ := none
  cost : Option ℚ := none
  circularity : Option ℚ := none
  weights : Option Weights := none

/-- The `/score` handler `calculate_score` from `app.py` lines 127-181,
returning the HTTP status and the store after the request.  A missing
required field returns 400 before anything else; the `ValueError` raised by
`calculate_sustainability_score` is caught and returned as 400; both paths
precede the append.  `ai` abstracts the external suggestion call's outcome
and `ts` the request timestamp. -/
def calculate_score (data : RequestData) (ai : Except Unit String) (ts : String)
    (store : List SubmissionRecord) : ℕ × List SubmissionRecord :=
  match data.product_name, data.materials, data.transport, data.packaging,
        data.gwp, data.cost, data.circularity with
  | some product_name, some materials, some transport, some packaging,
    some gwp, some cost, some circularity =>
    let weights := data.weights.getD DEFAULT_WEIGHTS
    match calculate_sustainability_score gwp circularity cost (some weights) with
    | .error _ => (400, store)
    | .ok score =>
      let rating := get_rating score
      let suggestions := get_ai_suggestions ai
      let issues := extract_issues materials transport packaging
      let record : SubmissionRecord :=
        ⟨product_name, materials, transport, packaging, gwp, cost, circularity,
         score, rating, suggestions, issues, ts, weights⟩
      (200, store ++ [record])
  | _, _, _, _, _, _, _ => (400, store)

/-- The submission-store states reachable from the empty store by any
sequence of `POST /score` and `POST /clear` requests. -/
inductive Reachable : List SubmissionRecord → Prop
  | empty : Reachable []
  | score {st : List SubmissionRecord} (data : RequestData) (ai : Except Unit String)
      (ts : String) : Reachable st → Reachable (calculate_score data ai ts st).2
  | clear {st : List SubmissionRecord} : Reachable st → Reachable (clear_data st).2

theorem pyRound_nonneg {x : ℚ} (hx : 0 ≤ x) : 0 ≤ pyRound x := by
  unfold pyRound
  have hf : 0 ≤ ⌊x⌋ := Int.floor_nonneg.mpr hx
  split_ifs with h1 h2
  · exact hf
  · omega
  · rw [round_eq]
    exact Int.floor_nonneg.mpr (by linarith)

theorem pyRound_le {x : ℚ} {n : ℤ} (hx : x ≤ (n : ℚ)) : pyRound x ≤ n := by
  unfold pyRound
  have hf : ⌊x⌋ ≤ n := by
    have := Int.floor_le_floor hx
    simpa using this
  split_ifs with h1 h2
  · exact hf
  · rw [Int.fract] at h1
    have hlt : (⌊x⌋ : ℚ) < (n : ℚ) := by linarith
    have : ⌊x⌋ < n := by exact_mod_cast hlt
    omega
  · rw [round_eq]
    have : ⌊x + 1/2⌋ < n + 1 := by
      rw [Int.floor_lt]
      push_cast
      linarith
    omega

theorem round2_nonneg {x : ℚ} (hx : 0 ≤ x) : 0 ≤ round2 x := by
  unfold round2
  have : (0 : ℚ) ≤ (pyRound (x * 100) : ℚ) := by
    exact_mod_cast pyRound_nonneg (by linarith)
  linarith

theorem round2_le {x : ℚ} {n : ℤ} (hx : x ≤ (n : ℚ)) : round2 x ≤ (n : ℚ) := by
  unfold round2
  have h1 : pyRound (x * 100) ≤ n * 100 := by
    apply pyRound_le
    push_cast
    linarith
  have : (pyRound (x * 100) : ℚ) ≤ ((n * 100 : ℤ) : ℚ) := by exact_mod_cast h1
  push_cast at this
  linarith

/-- Claim C1, counterexample.  The weight triple (0.5, 0.5, 0.005) sums to
1.005, within 0.01 of 1.0, and gwp = 0 ∈ [0,100], circularity = 100 ∈
[0,100], cost = 0 ∈ [0,1000]; yet `calculate_sustainability_score` returns
100.5, which is not in [0,100]. -/
theorem C1_counterexample :
    |((1:ℚ)/2 + 1/2 + 1/200) - 1| ≤ 1/100 ∧
    calculate_sustainability_score 0 100 0 (some ⟨1/2, 1/2, 1/200⟩) = .ok (201/2) ∧
    ¬ ((201 : ℚ)/2 ≤ 100) := by
  refine ⟨by rw [abs_of_nonneg (by norm_num)]; norm_num, ?_, by norm_num⟩
  norm_num [calculate_sustainability_score, round2, pyRound, Int.fract, round_eq, abs_of_nonneg]

/-- Claim C1 (amended): for every gwp, circularity and cost and every weight
triple with nonnegative components summing to within 0.01 of 1.0,
`calculate_sustainability_score` succeeds with a value in [0, 101] (the
upper end 101 is attained only through the 0.01 tolerance; with weights
summing exactly to 1 the bound specialises to [0, 100·1] and the original
[0,100] statement fails only via the tolerance, see `C1_counterexample`). -/
theorem C1_score_in_range (g c k : ℚ) (w : Weights) (r : ℚ)
    (hg : 0 ≤ w.gwp) (hc : 0 ≤ w.circularity) (hk : 0 ≤ w.cost)
    (h : calculate_sustainability_score g c k (some w) = .ok r) :
    0 ≤ r ∧ r ≤ 101 := by
  simp only [calculate_sustainability_score, Option.getD_some] at h
  split at h
  · cases h
  · rename_i hcond
    rw [not_lt, abs_le] at hcond
    simp only [Except.ok.injEq] at h
    subst h
    have hg1 : (0:ℚ) ≤ max 0 (min 100 g) := le_max_left 0 _
    have hg2 : max (0:ℚ) (min 100 g) ≤ 100 := max_le (by norm_num) (min_le_left _ _)
    have hc1 : (0:ℚ) ≤ max 0 (min 100 c) := le_max_left 0 _
    have hc2 : max (0:ℚ) (min 100 c) ≤ 100 := max_le (by norm_num) (min_le_left _ _)
    have hk1 : (0:ℚ) ≤ max 0 (min 1000 k) := le_max_left 0 _
    have hk2 : max (0:ℚ) (min 1000 k) ≤ 1000 := max_le (by norm_num) (min_le_left _ _)
    constructor
    · apply round2_nonneg
      have p1 : 0 ≤ (100 - max 0 (min 100 g)) * w.gwp := by
        apply mul_nonneg (by linarith) hg
      have p2 : 0 ≤ max 0 (min 100 c) * w.circularity := mul_nonneg hc1 hc
      have p3 : 0 ≤ (100 - max 0 (min 1000 k) / 1000 * 100) * w.cost := by
        apply mul_nonneg (by linarith) hk
      linarith
    · have h101 : ((101 : ℤ) : ℚ) = 101 := by norm_num
      rw [← h101]
      apply round2_le
      rw [h101]
      have p1 : (100 - max 0 (min 100 g)) * w.gwp ≤ 100 * w.gwp := by
        apply mul_le_mul_of_nonneg_right (by linarith) hg
      have p2 : max 0 (min 100 c) * w.circularity ≤ 100 * w.circularity := by
        apply mul_le_mul_of_nonneg_right (by linarith) hc
      have p3 : (100 - max 0 (min 1000 k) / 1000 * 100) * w.cost ≤ 100 * w.cost := by
        apply mul_le_mul_of_nonneg_right (by linarith) hk
      linarith

/-- Witness for `C1_score_in_range` at gwp = 50, circularity = 50,
cost = 500 with the default weights, where the score is 50. -/
theorem C1_witness : (0:ℚ) ≤ 50 ∧ (50:ℚ) ≤ 101 :=
  C1_score_in_range 50 50 500 DEFAULT_WEIGHTS 50
    (by norm_num [DEFAULT_WEIGHTS]) (by norm_num [DEFAULT_WEIGHTS])
    (by norm_num [DEFAULT_WEIGHTS])
    (by norm_num [calculate_sustainability_score, DEFAULT_WEIGHTS, round2, pyRound,
      Int.fract, round_eq])

/-- Claim C4 (confirmed): `get_rating` maps every rational score to exactly
one of A/B/C/D/F with inclusive lower bounds 85/70/55/40, and in particular
rates 84.99 as B and 85.00 as A. -/
theorem C4_get_rating_bands :
    (∀ s : ℚ,
      (85 ≤ s → get_rating s = "A") ∧
      (70 ≤ s → s < 85 → get_rating s = "B") ∧
      (55 ≤ s → s < 70 → get_rating s = "C") ∧
      (40 ≤ s → s < 55 → get_rating s = "D") ∧
      (s < 40 → get_rating s = "F") ∧
      (get_rating s = "A" ∨ get_rating s = "B" ∨ get_rating s = "C" ∨
       get_rating s = "D" ∨ get_rating s = "F")) ∧
    get_rating (8499/100) = "B" ∧ get_rating 85 = "A" := by
  refine ⟨fun s => ?_, by norm_num [get_rating], by norm_num [get_rating]⟩
  unfold get_rating
  split_ifs with h1 h2 h3 h4 <;>
    refine ⟨?_, ?_, ?_, ?_, ?_, ?_⟩ <;>
    first
      | (intros; rfl)
      | (intros; linarith)
      | tauto

/-- Witness for `C4_get_rating_bands` at the concrete scores 90 (band A)
and 60 (band C). -/
theorem C4_witness : get_rating 90 = "A" ∧ get_rating 60 = "C" :=
  ⟨(C4_get_rating_bands.1 90).1 (by norm_num),
   (C4_get_rating_bands.1 60).2.2.1 (by norm_num) (by norm_num)⟩

/-- Claim C5 (confirmed): `calculate_sustainability_score` fails with the
weight-validation error exactly when the weight components sum to more than
0.01 away from 1.0; a triple summing to 0.5 is rejected and one summing to
1.005 is accepted. -/
theorem C5_weight_validation :
    (∀ (g c k : ℚ) (w : Weights),
      (∃ e, calculate_sustainability_score g c k (some w) = .error e) ↔
        |w.gwp + w.circularity + w.cost - 1| > 1/100) ∧
    (∃ e, calculate_sustainability_score 0 0 0 (some ⟨1/4, 1/8, 1/8⟩) = .error e) ∧
    calculate_sustainability_score 0 100 0 (some ⟨1/2, 1/2, 1/200⟩) = .ok (201/2) := by
  refine ⟨fun g c k w => ?_, ?_, ?_⟩
  · simp only [calculate_sustainability_score, Option.getD_some]
    split
    · rename_i hcond
      exact iff_of_true ⟨_, rfl⟩ hcond
    · rename_i hcond
      exact iff_of_false (by rintro ⟨e, he⟩; cases he) hcond
  · refine ⟨"Weights must sum to 1.0", ?_⟩
    norm_num [calculate_sustainability_score]
    intro h
    rw [abs_of_nonneg (by norm_num)] at h
    norm_num at h
  · norm_num [calculate_sustainability_score, round2, pyRound, Int.fract, round_eq,
      abs_of_nonneg]

theorem foldl_filter_map {α β : Type} (P : α → Bool) (f : α → β) :
    ∀ (l : List α) (acc : List β),
      l.foldl (fun a x => if P x then a ++ [f x] else a) acc = acc ++ (l.filter P).map f := by
  intro l
  induction l with
  | nil => simp
  | cons x xs ih =>
    intro acc
    by_cases h : P x <;> simp [h, ih]

/-- Claim C6 (confirmed): `extract_issues` emits, in fixed order, one
"<material> material used" entry per material whose lowercased text contains
a problem keyword (original casing kept, no deduplication), then the air
transport issue when the lowercased transport equals one of the three air
keywords, then at most one packaging issue when the lowercased packaging
contains a non-recyclable keyword; and on the concrete input of the
specification it returns the three listed issues in order. -/
theorem C6_extract_issues :
    (∀ (materials : List String) (transport packaging : String),
      extract_issues materials transport packaging =
        ((materials.filter
            (fun m => problem_materials.any (fun pm => contains_sub pm (lowerStr m)))).map
          (fun m => m ++ " material used")) ++
        (if lowerStr transport = "air" ∨ lowerStr transport = "air freight" ∨
            lowerStr transport = "airplane"
         then ["Air transport (high emissions)"] else []) ++
        (if contains_sub "plastic" (lowerStr packaging) = true ∨
            contains_sub "mixed materials" (lowerStr packaging) = true ∨
            contains_sub "non-recyclable" (lowerStr packaging) = true
         then ["Non-recyclable packaging"] else [])) ∧
    extract_issues ["PVC Tray"] "Air Freight" "plastic wrap" =
      ["PVC Tray material used", "Air transport (high emissions)", "Non-recyclable packaging"] := by
  constructor
  · intro materials transport packaging
    have hc1 : ((["air", "air freight", "airplane"] : List String).contains
        (lowerStr transport) = true) ↔
        (lowerStr transport = "air" ∨ lowerStr transport = "air freight" ∨
         lowerStr transport = "airplane") := by
      simp
    have hc2 : (non_recyclable.any (fun nr => contains_sub nr (lowerStr packaging)) = true) ↔
        (contains_sub "plastic" (lowerStr packaging) = true ∨
         contains_sub "mixed materials" (lowerStr packaging) = true ∨
         contains_sub "non-recyclable" (lowerStr packaging) = true) := by
      simp [non_recyclable]
    simp only [extract_issues, foldl_filter_map, List.nil_append]
    by_cases h1 : (["air", "air freight", "airplane"] : List String).contains
        (lowerStr transport) = true <;>
      by_cases h2 : non_recyclable.any (fun nr => contains_sub nr (lowerStr packaging)) = true <;>
      simp only [h1, h2, if_true, if_false, Bool.false_eq_true, if_pos, if_neg,
        hc1.symm, hc2.symm] <;>
      simp [h1, h2, hc1.symm.mpr, List.append_assoc, hc1, hc2]
  · decide

/-- Claim C3, counterexample.  A successful external response with zero
bullet lines makes `get_ai_suggestions` return the empty list, not the
3-element fallback list: the fallback is substituted only when the external
call raises. -/
theorem C3_counterexample :
    get_ai_suggestions (.ok "There are no bullet lines here") = [] ∧
    get_ai_suggestions (.ok "There are no bullet lines here") ≠ FALLBACK_SUGGESTIONS := by
  refine ⟨by decide, ?_⟩
  intro h
  rw [show get_ai_suggestions (.ok "There are no bullet lines here") = [] from by decide] at h
  cases h

/-- Claim C3 (amended): `get_ai_suggestions` is total (it never propagates
an exception); whenever the external call raises it returns exactly the
fixed 3-element fallback list; but when the call succeeds with a response
containing zero lines that start with a bullet marker it returns the empty
list, not the fallback. -/
theorem C3_suggestions_fallback :
    (∀ e : Unit, get_ai_suggestions (.error e) = FALLBACK_SUGGESTIONS) ∧
    FALLBACK_SUGGESTIONS.length = 3 ∧
    (∀ text : String,
      (splitNl (stripBoth isPySpace text)).filter
          (fun s => startsWithStr "-" (stripBoth isPySpace s)) = [] →
        get_ai_suggestions (.ok text) = []) := by
  refine ⟨fun _ => rfl, rfl, fun text h => ?_⟩
  simp only [get_ai_suggestions, h, List.map_nil, List.take_nil]

/-- Witness for `C3_suggestions_fallback`: the fallback on a failing call,
and the empty result on a bullet-free response. -/
theorem C3_witness :
    get_ai_suggestions (.error ()) = FALLBACK_SUGGESTIONS ∧
    get_ai_suggestions (.ok "no bullets") = [] :=
  ⟨C3_suggestions_fallback.1 (),
   C3_suggestions_fallback.2.2 "no bullets" (by decide)⟩

/-- A concrete stored submission with the earliest of three timestamps. -/
def rec_t1 : SubmissionRecord :=
  ⟨"p1", [], "truck", "cardboard", 10, 10, 50, 50, "D", [], [],
   "2024-01-01T10:00:00", ⟨1, 0, 0⟩⟩

/-- A concrete stored submission with the middle of three timestamps. -/
def rec_t2 : SubmissionRecord :=
  ⟨"p2", [], "truck", "cardboard", 10, 10, 50, 50, "D", [], [],
   "2024-01-02T10:00:00", ⟨1, 0, 0⟩⟩

/-- A concrete stored submission with the latest of three timestamps. -/
def rec_t3 : SubmissionRecord :=
  ⟨"p3", [], "truck", "cardboard", 10, 10, 50, 50, "D", [], [],
   "2024-01-03T10:00:00", ⟨1, 0, 0⟩⟩

/-- Claim C7 (confirmed): `GET /history` returns a permutation of the store
sorted by timestamp in descending order, reporting as count the number of
stored records; on three stored submissions with increasing timestamps
T1 < T2 < T3 it returns them as [T3, T2, T1]. -/
theorem C7_history :
    (∀ subs : List SubmissionRecord,
      (get_history subs).submissions.Sorted ts_ge ∧
      (get_history subs).submissions.Perm subs ∧
      (get_history subs).count = subs.length) ∧
    rec_t1.timestamp.toList < rec_t2.timestamp.toList ∧
    rec_t2.timestamp.toList < rec_t3.timestamp.toList ∧
    (get_history [rec_t1, rec_t2, rec_t3]).submissions = [rec_t3, rec_t2, rec_t1] ∧
    (get_history [rec_t1, rec_t2, rec_t3]).count = 3 := by
  refine ⟨fun subs => ⟨?_, ?_, ?_⟩, ?_, ?_, ?_, ?_⟩
  · exact List.sorted_insertionSort ts_ge subs
  · exact List.perm_insertionSort ts_ge subs
  · simp [get_history, List.length_insertionSort]
  · decide
  · decide
  · decide
  · decide

/-- Claim C8, counterexample.  On the empty store the summary handler's
short-circuit branch returns an empty `ratings` object (no key "A", hence no
count 0 for it) and omits the `distribution` and `score_range` members
entirely. -/
theorem C8_counterexample :
    (get_summary id []).ratings.lookup "A" = none ∧
    (get_summary id []).ratings.lookup "A" ≠ some 0 ∧
    (get_summary id []).distribution = none ∧
    (get_summary id []).score_range = none := by
  refine ⟨rfl, ?_, rfl, rfl⟩
  intro h
  rw [show (get_summary id []).ratings.lookup "A" = none from rfl] at h
  cases h

/-- Claim C8 (amended): whenever the submission store is empty — including
immediately after any number of requests followed by a clear — the
score-summary response reports total_products = 0, average_score = 0, an
empty ratings object, an empty top_issues list, and no distribution or
score_range objects. -/
theorem C8_empty_summary (sqrtQ : ℚ → ℚ) :
    get_summary sqrtQ [] = ⟨0, 0, [], [], none, none⟩ ∧
    ∀ st : List SubmissionRecord,
      get_summary sqrtQ (clear_data st).2 = ⟨0, 0, [], [], none, none⟩ :=
  ⟨rfl, fun _ => rfl⟩

/-- Claim C9 (confirmed): clearing the store leaves it empty; a subsequent
history read returns no records and subsequent aggregation reports
total_products = 0 and average_score = 0. -/
theorem C9_clear (st : List SubmissionRecord) (sqrtQ : ℚ → ℚ) :
    (clear_data st).2 = [] ∧
    get_history (clear_data st).2 = ⟨0, []⟩ ∧
    (get_summary sqrtQ (clear_data st).2).total_products = 0 ∧
    (get_summary sqrtQ (clear_data st).2).average_score = 0 :=
  ⟨rfl, rfl, rfl, rfl⟩

/-- Claim C10 (confirmed): whenever the `/score` handler responds 400 — a
required field is missing or the weight triple fails validation — the store
is exactly what it was before the request. -/
theorem C10_failed_request_preserves_store (d : RequestData) (ai : Except Unit String)
    (ts : String) (store : List SubmissionRecord)
    (h : (calculate_score d ai ts store).1 = 400) :
    (calculate_score d ai ts store).2 = store := by
  rcases hres : calculate_score d ai ts store with ⟨status, store'⟩
  rw [hres] at h
  simp only at h
  simp only [calculate_score] at hres
  split at hres
  · split at hres
    · cases hres
      rfl
    · cases hres
      cases h
  · cases hres
    rfl

/-- Witness for `C10_failed_request_preserves_store`: a request with every
required field missing leaves the one-record store untouched. -/
theorem C10_witness :
    (calculate_score {} (.error ()) "2024-01-04T10:00:00" [rec_t1]).2 = [rec_t1] :=
  C10_failed_request_preserves_store {} (.error ()) "2024-01-04T10:00:00" [rec_t1] rfl

/-- A `/score` request whose weight triple (0.5, 0.5, 0.005) passes the
0.01-tolerance validation yet pushes the stored score above 100. -/
def cex_request : RequestData :=
  { product_name := some "Widget", materials := some ["Steel"],
    transport := some "truck", packaging := some "cardboard",
    gwp := some 0, cost := some 0, circularity := some 100,
    weights := some ⟨1/2, 1/2, 1/200⟩ }

/-- The submission record stored by a successful `cex_request`: its score is
100.5. -/
def cex_record : SubmissionRecord :=
  ⟨"Widget", ["Steel"], "truck", "cardboard", 0, 0, 100, 201/2, "A",
   FALLBACK_SUGGESTIONS, [], "2024-01-05T10:00:00", ⟨1/2, 1/2, 1/200⟩⟩

theorem cex_step_eq :
    (calculate_score cex_request (.error ()) "2024-01-05T10:00:00" []).2 = [cex_record] := by
  have hcalc : calculate_sustainability_score 0 100 0 (some ⟨1/2, 1/2, 1/200⟩) = .ok (201/2) := by
    norm_num [calculate_sustainability_score, round2, pyRound, Int.fract, round_eq,
      abs_of_nonneg]
  have hrate : get_rating (201/2) = "A" := by norm_num [get_rating]
  have hiss : extract_issues ["Steel"] "truck" "cardboard" = [] := by decide
  simp only [calculate_score, cex_request, Option.getD_some, hcalc, hrate, hiss]
  simp [cex_record, get_ai_suggestions]

theorem cex_reachable : Reachable [cex_record] :=
  cex_step_eq ▸
    Reachable.score cex_request (.error ()) "2024-01-05T10:00:00" Reachable.empty

/-- Claim C2, counterexample.  The state holding exactly `cex_record` is
reachable from the empty store by one successful `POST /score`, and its
stored score is 100.5 ∉ [0,100]: the accepted weight tolerance lets stored
scores exceed 100. -/
theorem C2_counterexample :
    Reachable [cex_record] ∧ cex_record.score = 201/2 ∧ ¬(cex_record.score ≤ 100) := by
  refine ⟨cex_reachable, rfl, ?_⟩
  show ¬((201 : ℚ)/2 ≤ 100)
  norm_num

/-- Claim C2 (amended): in every reachable state of the submission store,
every stored record's rating equals what the Rater's thresholds assign to
its stored score.  (The claim's further assertion that every stored score
lies in [0,100] fails, see the counterexample: scores up to 100.5 and beyond
are storable through the weight tolerance.) -/
theorem C2_store_invariant (st : List SubmissionRecord) (h : Reachable st) :
    ∀ r ∈ st, r.rating = get_rating r.score := by
  induction h with
  | empty =>
    intro r hr
    cases hr
  | score data ai ts _ ih =>
    intro r hr
    simp only [calculate_score] at hr
    split at hr
    · split at hr
      · exact ih r hr
      · simp only at hr
        rcases List.mem_append.mp hr with hmem | hmem
        · exact ih r hmem
        · rcases List.mem_singleton.mp hmem with rfl
          rfl
    · exact ih r hr
  | clear _ ih =>
    intro r hr
    cases hr

/-- Witness for `C2_store_invariant` at the reachable one-record state
`[cex_record]`. -/
theorem C2_witness : cex_record.rating = get_rating cex_record.score :=
  C2_store_invariant [cex_record] cex_reachable cex_record (List.mem_singleton.mpr rfl)

/-- Witness for `C5_weight_validation`: a triple summing to 2 is rejected. -/
theorem C5_witness : ∃ e, calculate_sustainability_score 1 2 3 (some ⟨2, 0, 0⟩) = .error e :=
  (C5_weight_validation.1 1 2 3 ⟨2, 0, 0⟩).mpr (by norm_num [abs_of_nonneg])
